import Mathlib

/-
Verification of the AIM (Agent Identity Management) Python SDK client,
`sdk/python/aim_sdk/client.py` and `demo-agent-aim-sdk/sdk/python/aim_sdk/oauth.py`,
against its natural-language specification.

The Python code is shallowly embedded: HTTP traffic is abstracted as explicit
response values fed to the embedded functions, wall-clock time as a rational
parameter, and the Ed25519/base64 primitives (library code, not repository code)
as abstract function parameters.  JSON canonicalization (`json.dumps` with
`sort_keys=True` and explicit separators) is embedded executably.
-/

namespace AimSdk

/-- A JSON value, as produced by the Python SDK (dict/list/str/int/bool/None). -/
inductive Json where
  | str : String → Json
  | num : Int → Json
  | bool : Bool → Json
  | null : Json
  | arr : List Json → Json
  | obj : List (String × Json) → Json

/-- Lowercase hexadecimal digit, as used by Python's `json` module for `\uXXXX`. -/
def hexDigit (n : Nat) : Char :=
  if n < 10 then Char.ofNat (48 + n) else Char.ofNat (87 + n)

/-- Four lowercase hex digits. -/
def hex4 (n : Nat) : String :=
  String.mk [hexDigit (n / 4096 % 16), hexDigit (n / 256 % 16), hexDigit (n / 16 % 16),
    hexDigit (n % 16)]

/-- Escaping of one character exactly as Python's `json.dumps` (default
`ensure_ascii=True`) renders it inside a string literal. -/
def escapeChar (c : Char) : String :=
  if c = '"' then "\\\""
  else if c = '\\' then "\\\\"
  else if c = '\n' then "\\n"
  else if c = '\r' then "\\r"
  else if c = '\t' then "\\t"
  else if c.toNat = 8 then "\\b"
  else if c.toNat = 12 then "\\f"
  else if c.toNat < 32 then "\\u" ++ hex4 c.toNat
  else if c.toNat < 127 then String.singleton c
  else if c.toNat < 65536 then "\\u" ++ hex4 c.toNat
  else
    let v := c.toNat - 65536
    "\\u" ++ hex4 (55296 + v / 1024) ++ "\\u" ++ hex4 (56320 + v % 1024)

/-- A JSON string literal, as rendered by `json.dumps`. -/
def encodeString (s : String) : String :=
  "\"" ++ String.join (s.data.map escapeChar) ++ "\""

/-- Insert one already-serialized key/value pair into a key-sorted list
(byte-wise lexicographic order on keys, as Python's `sort_keys=True`). -/
def insertPair (p : String × String) : List (String × String) → List (String × String)
  | [] => [p]
  | q :: rest => if q.1 < p.1 then q :: insertPair p rest else p :: q :: rest

/-- Sort serialized key/value pairs by key (insertion sort). -/
def sortPairs : List (String × String) → List (String × String)
  | [] => []
  | p :: rest => insertPair p (sortPairs rest)

mutual

/-- `json.dumps(v, sort_keys=True, separators=(isep, ksep))`: canonical JSON
serialization with lexicographically sorted object keys. -/
def dumpsVal (isep ksep : String) : Json → String
  | .str s => encodeString s
  | .num n => toString n
  | .bool b => if b then "true" else "false"
  | .null => "null"
  | .arr xs => "[" ++ String.intercalate isep (dumpsList isep ksep xs) ++ "]"
  | .obj kvs =>
      "\x7b" ++
        String.intercalate isep
          ((sortPairs (dumpsPairs isep ksep kvs)).map
            (fun kv => encodeString kv.1 ++ ksep ++ kv.2)) ++
      "\x7d"

/-- Serialize each element of a JSON array. -/
def dumpsList (isep ksep : String) : List Json → List String
  | [] => []
  | x :: xs => dumpsVal isep ksep x :: dumpsList isep ksep xs

/-- Serialize the value of each object entry, keeping the key. -/
def dumpsPairs (isep ksep : String) : List (String × Json) → List (String × String)
  | [] => []
  | (k, v) :: rest => (k, dumpsVal isep ksep v) :: dumpsPairs isep ksep rest

end

/-- An optional Python string rendered as JSON (`None` becomes `null`). -/
def optStr : Option String → Json
  | none => .null
  | some s => .str s

/-- The `signature_payload` dict built in `verify_action`
(client.py lines 337-343), in its source field order. -/
def signature_payload (agent_id action_type : String) (resource : Option String)
    (context : List (String × Json)) (timestamp : String) : List (String × Json) :=
  [("action_type", .str action_type),
   ("agent_id", .str agent_id),
   ("context", .obj context),
   ("resource", optStr resource),
   ("timestamp", .str timestamp)]

/-- The signed message of `verify_action` (client.py line 346):
`json.dumps(signature_payload, sort_keys=True, separators=(", ", ": "))`. -/
def signature_message (agent_id action_type : String) (resource : Option String)
    (context : List (String × Json)) (timestamp : String) : String :=
  dumpsVal ", " ": " (.obj (signature_payload agent_id action_type resource context timestamp))

/-- The `request_payload` dict POSTed by `verify_action`
(client.py lines 351-359), carrying the signature and public key. -/
def request_payload (agent_id action_type : String) (resource : Option String)
    (context : List (String × Json)) (timestamp signature public_key : String) :
    List (String × Json) :=
  [("agent_id", .str agent_id),
   ("action_type", .str action_type),
   ("resource", optStr resource),
   ("context", .obj context),
   ("timestamp", .str timestamp),
   ("signature", .str signature),
   ("public_key", .str public_key)]

/-! ## Action verification (`verify_action`, `_wait_for_approval`) -/

/-- The parsed JSON body of a server response to a verification POST/GET,
as read by `result.get(...)` in client.py. -/
structure BodyFields where
  id : Option String
  status : Option String
  approvedBy : Option String
  expiresAt : Option String
  denialReason : Option String
  errorMsg : Option String
deriving DecidableEq, Repr

/-- One HTTP exchange as the SDK observes it: an HTTP response carrying a
status code, the raw text, and either parsed JSON fields or a JSON decode
failure message; or a transport-level failure (`requests.RequestException`),
carrying the Python rendering `TypeName: message`. -/
inductive NetResponse where
  | http : Nat → String → Except String BodyFields → NetResponse
  | netError : String → NetResponse

/-- The error kinds of `aim_sdk.exceptions` raised by the verification paths. -/
inductive AimError where
  | authentication : String → AimError
  | actionDenied : String → AimError
  | verification : String → AimError
deriving DecidableEq, Repr

/-- A verification result dict as returned by `verify_action` /
`_wait_for_approval`. -/
structure VRecord where
  verified : Bool
  verification_id : Option String
  status : Option String
  approved_by : Option String
  expires_at : Option String
  error : Option String
deriving DecidableEq, Repr

/-- The synthetic fallback record `verify_action` returns on 404/4xx/5xx,
network failure and unexpected errors (client.py lines 403-408 etc.). -/
def syntheticPending (e : String) : VRecord :=
  { verified := false, verification_id := none, status := some "pending",
    approved_by := none, expires_at := none, error := some e }

/-- `response.json().get("error", ...)` with fallback to the raw text, as in
the 401 handler of `verify_action` (client.py lines 389-392). -/
def authDetail (text : String) : Except String BodyFields → String
  | .ok bf => bf.errorMsg.getD "unknown error"
  | .error _ => text

/-- The message built by `verify_action` for a generic HTTP error
(client.py lines 411-417). -/
def http_error_msg (c : Nat) (text : String) : Except String BodyFields → String
  | .ok bf => "HTTP " ++ toString c ++ " error: " ++ bf.errorMsg.getD text
  | .error _ => "HTTP " ++ toString c ++ " error: " ++ text.take 200

/-- Python `f"{status}"` on `result.get("status")`. -/
def statusRepr : Option String → String
  | none => "None"
  | some s => s

/-- One iteration of the `_wait_for_approval` polling loop classifies the
GET response (client.py lines 506-601). -/
inductive StepOut where
  | term : Except AimError VRecord → StepOut
  | next : StepOut

/-- Classification of one poll response in `_wait_for_approval`:
401/403 raise `AuthenticationError`, 404 raises `VerificationError`
immediately, other HTTP errors, network errors, JSON decode failures and
non-terminal statuses continue polling; `approved` returns the success
record, `denied` raises `ActionDeniedError`. -/
def pollStep (vid : Option String) : NetResponse → StepOut
  | .netError _ => .next
  | .http c _text body =>
      if c = 401 then
        .term (.error (.authentication "Authentication failed - invalid agent credentials"))
      else if c = 403 then
        .term (.error (.authentication "Forbidden - insufficient permissions"))
      else if c = 404 then
        .term (.error (.verification
          "Verification endpoint not available - cannot complete approval process"))
      else if 400 ≤ c then .next
      else
        match body with
        | .error _ => .next
        | .ok bf =>
            if bf.status = some "approved" then
              .term (.ok
                { verified := true, verification_id := vid, status := none,
                  approved_by := bf.approvedBy, expires_at := bf.expiresAt, error := none })
            else if bf.status = some "denied" then
              .term (.error (.actionDenied
                ("Action denied: " ++ bf.denialReason.getD "Action denied")))
            else .next

/-- Outcome of the polling loop.  `exhausted` marks that the model ran out of
supplied responses while the loop would still be polling; theorems only
describe runs that terminate within the supplied responses. -/
inductive PollResult where
  | done : Except AimError VRecord → PollResult
  | exhausted : ℚ → ℚ → PollResult

/-- `_wait_for_approval` (client.py lines 487-603) as a function of the
sequence of poll responses.  Time is the sum of the sleeps performed (HTTP
round-trip time abstracted to zero); the loop runs while
`elapsed < timeout_seconds`, sleeps `interval` seconds after every
non-terminal response, and grows the interval by
`interval := min (interval * 1.5) 10`.  Returns the outcome and the list of
sleeps performed. -/
def waitLoop (timeout : ℚ) (vid : Option String) :
    List NetResponse → ℚ → ℚ → PollResult × List ℚ
  | rs, elapsed, interval =>
    if elapsed < timeout then
      match rs with
      | [] => (.exhausted elapsed interval, [])
      | r :: rest =>
          match pollStep vid r with
          | .term out => (.done out, [])
          | .next =>
              let res := waitLoop timeout vid rest (elapsed + interval) (min (interval * (3 / 2)) 10)
              (res.1, interval :: res.2)
    else
      (.done (.error (.verification
        ("Verification timeout after " ++ toString timeout ++ " seconds"))), [])

/-- `_wait_for_approval(verification_id, timeout_seconds)`: the loop starts
with `elapsed = 0` and `poll_interval = 2`. -/
def wait_for_approval (timeout : ℚ) (vid : Option String) (rs : List NetResponse) :
    PollResult × List ℚ :=
  waitLoop timeout vid rs 0 2

/-- The backoff interval entering the n-th polling iteration:
2 seconds initially, multiplied by 1.5 per iteration, capped at 10. -/
def backoff (n : ℕ) : ℚ := min (2 * (3 / 2) ^ n) 10

/-- Sum of `k` consecutive backoff intervals starting at iteration `n`. -/
def backSum (n : ℕ) : ℕ → ℚ
  | 0 => 0
  | k + 1 => backoff n + backSum (n + 1) k

/-- Result of the embedded `verify_action`: either a Python-level outcome
(a returned record or a raised error), or a marker that the model ran out
of poll responses. -/
inductive VerifyModel where
  | result : Except AimError VRecord → VerifyModel
  | modelExhausted : VerifyModel

/-- The body of `verify_action`'s `try:` block (client.py lines 365-452):
interpretation of the initial POST response, entering the poll loop on
`pending`.  Transport failures and JSON decode failures are shown here with
the record their `except` handlers produce (lines 456-475). -/
def verify_action_try (resp : NetResponse) (pollRs : List NetResponse) (timeout : ℚ) :
    VerifyModel :=
  match resp with
  | .netError s => .result (.ok (syntheticPending ("Network error: " ++ s)))
  | .http c text body =>
      if c = 401 then
        .result (.error (.authentication
          ("Authentication failed - invalid agent credentials: " ++ authDetail text body)))
      else if c = 403 then
        .result (.error (.authentication "Forbidden - insufficient permissions"))
      else if c = 404 then
        .result (.ok (syntheticPending "Endpoint not found - server may not be available"))
      else if 400 ≤ c then
        .result (.ok (syntheticPending (http_error_msg c text body)))
      else
        match body with
        | .error e => .result (.ok (syntheticPending ("JSON decode error: " ++ e)))
        | .ok bf =>
            if bf.status = some "approved" then
              .result (.ok
                { verified := true, verification_id := bf.id, status := none,
                  approved_by := bf.approvedBy, expires_at := bf.expiresAt, error := none })
            else if bf.status = some "denied" then
              .result (.error (.actionDenied
                ("Action denied: " ++ bf.denialReason.getD "Action denied by policy")))
            else if bf.status = some "pending" then
              match (wait_for_approval timeout bf.id pollRs).1 with
              | .done out => .result out
              | .exhausted _ _ => .modelExhausted
            else .result (.error (.verification
              ("Unexpected verification status: " ++ statusRepr bf.status)))

/-- `verify_action` (client.py lines 296-485): the `try:` body followed by
its `except` clauses.  `AuthenticationError` and `ActionDeniedError` are
re-raised; every other exception — including `VerificationError`, which is
not a subclass of either (exceptions.py) — falls into the final
`except Exception` handler, which returns the synthetic pending record. -/
def verify_action (resp : NetResponse) (pollRs : List NetResponse) (timeout : ℚ) :
    VerifyModel :=
  match verify_action_try resp pollRs timeout with
  | .result (.error (.verification m)) =>
      .result (.ok (syntheticPending ("Unexpected error: VerificationError: " ++ m)))
  | .result (.error (.authentication m)) => .result (.error (.authentication m))
  | .result (.error (.actionDenied m)) => .result (.error (.actionDenied m))
  | .result (.ok r) => .result (.ok r)
  | .modelExhausted => .modelExhausted

/-! ## The `track_action` / `require_approval` wrapper body -/

/-- Observable events of one wrapped call, in order: the `verify_action`
call, the invocation of the wrapped body, and the result-log POST
(`log_action_result`) with its `success` flag. -/
inductive Event where
  | verify : Event
  | execute : Event
  | logResult : Bool → Event
deriving DecidableEq, Repr

/-- A Python exception raised by the wrapped body: class name and `str(e)`. -/
structure PyExc where
  name : String
  msg : String
deriving DecidableEq, Repr

/-- What a wrapped call returns: the body's value, or the structured error
record `{"error": True, "error_type": ..., "error_message": ..., "action": ...,
"status": ...}` the wrappers build instead of raising. -/
inductive TrackResult (α : Type) where
  | value : α → TrackResult α
  | errorRecord : (error_type error_message action status : String) → TrackResult α
deriving DecidableEq, Repr

/-- `type(e).__name__` for the SDK exception classes (exceptions.py). -/
def err_name : AimError → String
  | .authentication _ => "AuthenticationError"
  | .actionDenied _ => "ActionDeniedError"
  | .verification _ => "VerificationError"

/-- `str(e)` for the SDK exceptions (the message they were raised with). -/
def err_msg : AimError → String
  | .authentication m => m
  | .actionDenied m => m
  | .verification m => m

/-- Python truthiness of `d.get(key)` for an optional string value. -/
def pyTruthyS : Option String → Bool
  | none => false
  | some s => s ≠ ""

/-- The wrapper body shared by `track_action` (client.py lines 1461-1567)
and `require_approval` (lines 1609-1723): request verification, convert any
exception from `verify_action` to a `verification_failed` error record,
refuse to run the body unless the result is error-free and `verified`, then
execute the body, log the result, and return the value or an
`execution_failed` error record.  Returns the result together with the
event trace (verify, execute, result log). -/
def tracked_call (action : String) (vo : Except AimError VRecord)
    (body : Except PyExc α) : TrackResult α × List Event :=
  match vo with
  | .error e =>
      (.errorRecord (err_name e) (err_msg e) action "verification_failed", [.verify])
  | .ok r =>
      if pyTruthyS r.error then
        (.errorRecord "VerificationError" (r.error.getD "") action "verification_failed",
         [.verify])
      else if ¬ r.verified then
        -- the Python message quotes the action name: f-string of action, then the
        -- reason read from the record (falling back to "Unknown reason")
        (.errorRecord "ActionDenied"
          ("Action " ++ action ++ " denied: " ++ (r.error.getD "Unknown reason"))
          action "denied",
         [.verify])
      else
        match body with
        | .ok v => (.value v, [.verify, .execute, .logResult true])
        | .error exc =>
            (.errorRecord exc.name exc.msg action "execution_failed",
             [.verify, .execute, .logResult false])

/-- A `track_action`-wrapped invocation end to end: `verify_action` on the
given responses, then the wrapper body.  `none` when the poll model ran out
of responses. -/
def track_action_run (action : String) (resp : NetResponse) (pollRs : List NetResponse)
    (timeout : ℚ) (body : Except PyExc α) : Option (TrackResult α × List Event) :=
  match verify_action resp pollRs timeout with
  | .modelExhausted => none
  | .result vo => some (tracked_call action vo body)

/-! ## HTTP envelope signing (`_make_request`) -/

/-- Python truthiness of an optional string (`if s:` / `s or ...`). -/
def pyTruthyOS : Option String → Bool
  | none => false
  | some s => s ≠ ""

/-- Python truthiness of an optional dict argument (`if data:`). -/
def pyTruthyObj : Option (List (String × Json)) → Bool
  | none => false
  | some kvs => !kvs.isEmpty

/-- How the request body goes on the wire: the pre-serialized string passed
as `data=json_body_str`, or `json=data` left to `requests` to serialize. -/
inductive BodySend where
  | raw : String → BodySend
  | auto : Option (List (String × Json)) → BodySend

/-- The request as prepared by `_make_request`: the Ed25519 signing message
(when envelope signing applies), the authentication headers added, and the
body transmission mode. -/
structure Prepared where
  message : Option String
  headers : List (String × String)
  body : BodySend

/-- The authentication part of `_make_request` (client.py lines 156-259):
Ed25519 envelope signing when a signing key is present (highest priority),
else `X-API-Key`, else an OAuth bearer token.  `sign` abstracts
`base64encode(signing_key.sign(...).signature)`; `oauth_token` is the token
`oauth_token_manager.get_access_token()` produced, `none` when there is no
manager or it failed; `ts` is `int(time.time())`. -/
def make_request_prep (sign : String → String) (hasSigningKey : Bool)
    (agent_id public_key : String) (api_key oauth_token : Option String)
    (method endpoint : String) (ts : ℕ)
    (data : Option (List (String × Json))) : Prepared :=
  if hasSigningKey ∧ public_key ≠ "" ∧ agent_id ≠ "" then
    let tsStr := toString ts
    let jsonBody : Option String :=
      if pyTruthyObj data then some (dumpsVal ", " ": " (.obj (data.getD []))) else none
    let message := String.intercalate "\n"
      ([method.toUpper, endpoint, tsStr] ++
        match jsonBody with | some s => [s] | none => [])
    { message := some message,
      headers :=
        [("X-Agent-ID", agent_id), ("X-Signature", sign message),
         ("X-Timestamp", tsStr), ("X-Public-Key", public_key)] ++
        (match jsonBody with
         | some _ => [("Content-Type", "application/json")]
         | none => []),
      body := match jsonBody with | some s => .raw s | none => .auto data }
  else if pyTruthyOS api_key then
    { message := none, headers := [("X-API-Key", api_key.getD "")], body := .auto data }
  else
    match oauth_token with
    | some tok =>
        { message := none, headers := [("Authorization", "Bearer " ++ tok)],
          body := .auto data }
    | none => { message := none, headers := [], body := .auto data }

/-- The envelope signing message as the specification words it: the
newline-join of the uppercase HTTP method, the request path, the decimal
Unix timestamp and — only when a body is present — the sorted-keys JSON
serialization of the body.  Stated from the spec, to be compared with
`make_request_prep`. -/
def spec_envelope_message (method endpoint : String) (ts : ℕ)
    (data : Option (List (String × Json))) : String :=
  String.intercalate "\n"
    ([method.toUpper, endpoint, toString ts] ++
      (if pyTruthyObj data then [dumpsVal ", " ": " (.obj (data.getD []))] else []))

/-! ## OAuth token manager (demo-agent-aim-sdk oauth.py) -/

/-- The credentials dict held by `OAuthTokenManager` (the fields the token
paths read). -/
structure TokenCreds where
  aim_url : Option String
  refresh_token : Option String
  sdk_token_id : Option String
deriving DecidableEq, Repr

/-- The in-memory state of `OAuthTokenManager`. -/
structure TokenState where
  credentials : Option TokenCreds
  access_token : Option String
  access_token_expiry : Option ℚ
deriving DecidableEq, Repr

/-- One HTTP POST issued by the token manager: the URL and the refresh token
carried in the body. -/
structure ApiCall where
  url : String
  token : String
deriving DecidableEq, Repr

/-- The response to the `/api/v1/auth/refresh` POST. -/
structure RefreshResponse where
  statusCode : ℕ
  errorMsg : String
  access_token : Option String
  refresh_token : Option String
deriving DecidableEq, Repr

/-- The response to the `/api/v1/auth/sdk/recover` POST. -/
structure RecoveryResponse where
  statusCode : ℕ
  access_token : Option String
  refresh_token : Option String
deriving DecidableEq, Repr

/-- Python `needle in hay`, via `str.split`. -/
def containsSub (hay needle : String) : Bool := (hay.splitOn needle).length ≠ 1

/-- Python truthiness of the float `access_token_expiry`. -/
def pyTruthyQ : Option ℚ → Bool
  | none => false
  | some e => e ≠ 0

/-- Python `aim_url.rstrip('/')`. -/
def rstrip_slash (s : String) : String :=
  String.mk ((s.data.reverse.dropWhile (fun c => c = '/')).reverse)

/-- `OAuthTokenManager._refresh_token` (oauth.py lines 176-339) as a function
of the refresh and recovery responses.  `decodeExp` abstracts the JWT
base64/JSON decoding of a token's payload: `none` when decoding raises (the
one-hour default applies), `some e` when it yields the `exp` claim `e` (an
`Option ℚ`, as `payload.get('exp')` may be absent).  `decodeJti` likewise
abstracts extraction of a truthy `jti` claim.  Returns the access token
returned to the caller, the new manager state, and the POSTs issued in
order. -/
def refresh_token_fn (decodeExp : String → Option (Option ℚ))
    (decodeJti : String → Option String) (now : ℚ) (st : TokenState)
    (resp : RefreshResponse) (rec : RecoveryResponse) :
    Option String × TokenState × List ApiCall :=
  match st.credentials with
  | none => (none, st, [])
  | some creds =>
      match creds.refresh_token with
      | none => (none, st, [])
      | some rt =>
          let aimUrl := rstrip_slash (creds.aim_url.getD "http://localhost:8080")
          let refreshCall : ApiCall := { url := aimUrl ++ "/api/v1/auth/refresh", token := rt }
          if resp.statusCode ≠ 200 then
            if containsSub resp.errorMsg.toLower "revoked"
                ∨ containsSub resp.errorMsg.toLower "invalid" then
              let recCall : ApiCall :=
                { url := aimUrl ++ "/api/v1/auth/sdk/recover", token := rt }
              if rec.statusCode = 200 then
                match rec.refresh_token with
                | some nrt =>
                    let jti1 : Option String :=
                      match decodeJti nrt with
                      | some j => some j
                      | none => creds.sdk_token_id
                    let creds1 : TokenCreds :=
                      { creds with refresh_token := some nrt, sdk_token_id := jti1 }
                    let newExp : Option ℚ :=
                      match rec.access_token with
                      | some at1 =>
                          (match decodeExp at1 with
                           | some e => e
                           | none => some (now + 3600))
                      | none => some (now + 3600)
                    (rec.access_token,
                     { credentials := some creds1, access_token := rec.access_token,
                       access_token_expiry := newExp },
                     [refreshCall, recCall])
                | none =>
                    (none, { st with access_token := rec.access_token },
                     [refreshCall, recCall])
              else (none, st, [refreshCall, recCall])
            else (none, st, [refreshCall])
          else
            let rotated : Bool :=
              pyTruthyOS resp.refresh_token && resp.refresh_token != some rt
            let jti2 : Option String :=
              match decodeJti (resp.refresh_token.getD "") with
              | some j => some j
              | none => creds.sdk_token_id
            let creds1 : TokenCreds :=
              if rotated then
                { creds with refresh_token := resp.refresh_token, sdk_token_id := jti2 }
              else creds
            let newExp : Option ℚ :=
              if pyTruthyOS resp.access_token then
                match decodeExp (resp.access_token.getD "") with
                | some e => e
                | none => some (now + 3600)
              else st.access_token_expiry
            (resp.access_token,
             { credentials := some creds1, access_token := resp.access_token,
               access_token_expiry := newExp },
             [refreshCall])

/-- `OAuthTokenManager.get_access_token` (oauth.py lines 158-174): return the
cached token while `time.time() < expiry - 60`, otherwise refresh. -/
def get_access_token_fn (decodeExp : String → Option (Option ℚ))
    (decodeJti : String → Option String) (now : ℚ) (st : TokenState)
    (resp : RefreshResponse) (rec : RecoveryResponse) :
    Option String × TokenState × List ApiCall :=
  match st.credentials with
  | none => (none, st, [])
  | some _ =>
      if pyTruthyOS st.access_token ∧ pyTruthyQ st.access_token_expiry
          ∧ now < st.access_token_expiry.getD 0 - 60 then
        (st.access_token, st, [])
      else refresh_token_fn decodeExp decodeJti now st resp rec

/-! ## Credential persistence (client.py `_save_credentials`,
demo oauth.py `OAuthTokenManager.save_credentials`,
sdks secure_storage.py `SecureCredentialStorage.__init__`) -/

/-- The registration-response fields `_save_credentials` persists. -/
structure RegCredentials where
  agent_id : String
  public_key : String
  private_key : String
  aim_url : String
  status : Option String
  trust_score : Option Int
deriving DecidableEq, Repr

/-- An optional integer rendered as JSON (`None` becomes `null`). -/
def optInt : Option Int → Json
  | none => .null
  | some n => .num n

/-- The per-agent credentials object `_save_credentials` writes
(client.py lines 1774-1782), in source key order. -/
def save_credentials_entry (credentials : RegCredentials) (registered_at : String) :
    List (String × Json) :=
  [("agent_id", .str credentials.agent_id),
   ("public_key", .str credentials.public_key),
   ("private_key", .str credentials.private_key),
   ("aim_url", .str credentials.aim_url),
   ("status", .str (credentials.status.getD "unknown")),
   ("trust_score", optInt credentials.trust_score),
   ("registered_at", .str registered_at)]

/-- `all_creds[agent_name] = {...}`: replace the entry if the key exists,
else append it. -/
def upsert (store : List (String × List (String × Json))) (k : String)
    (v : List (String × Json)) : List (String × List (String × Json)) :=
  if store.any (fun p => p.1 = k) then
    store.map (fun p => if p.1 = k then (k, v) else p)
  else store ++ [(k, v)]

/-- A write of the credentials file: either the JSON object written in clear
to `~/.aim/credentials.json` (`json.dump`, then `chmod 0o600`), or a payload
sealed by `SecureCredentialStorage` before hitting disk. -/
inductive FileWrite where
  | plaintextJson : List (String × List (String × Json)) → FileWrite
  | encryptedBlob : List (String × List (String × Json)) → FileWrite

/-- `_save_credentials(agent_name, credentials)` (client.py lines 1754-1787):
the updated store is always written as plaintext JSON (no encryption is
involved on this path), with owner-only permissions. -/
def save_credentials_file (store : List (String × List (String × Json)))
    (agent_name : String) (credentials : RegCredentials) (registered_at : String) :
    FileWrite :=
  .plaintextJson (upsert store agent_name (save_credentials_entry credentials registered_at))

/-- Where `OAuthTokenManager.save_credentials` puts the credentials dict. -/
inductive SaveDest where
  | secure : List (String × Json) → SaveDest
  | plaintext : List (String × Json) → SaveDest

/-- `OAuthTokenManager.save_credentials` (demo oauth.py lines 126-152):
uses `SecureCredentialStorage` when the optional `cryptography`/`keyring`
modules loaded, and otherwise falls back to a plaintext `json.dump` with
`chmod 0o600`. -/
def oauth_save_credentials (secure_storage_available : Bool)
    (credentials : List (String × Json)) : SaveDest :=
  if secure_storage_available then .secure credentials else .plaintext credentials

/-- `SecureCredentialStorage.__init__` (sdks/python secure_storage.py lines
43-67): raises `RuntimeError` when `cryptography` or `keyring` is missing
(message abbreviated). -/
def secure_storage_init (cryptography_available keyring_available : Bool) :
    Except String Unit :=
  if ¬ cryptography_available ∨ ¬ keyring_available then
    .error "SECURITY ERROR: required packages not installed"
  else .ok ()

/-! ## `register_agent` (client.py lines 1812-2018) -/

/-- A stored credentials record as `_load_credentials(name)` returns it. -/
structure StoredAgentCreds where
  agent_id : String
  public_key : String
  private_key : String
  aim_url : String
  refresh_token : Option String
  access_token : Option String
deriving DecidableEq, Repr

/-- The embedded SDK credentials `load_sdk_credentials()` may find. -/
structure SdkCreds where
  aim_url : Option String
  sdk_token_id : Option String
deriving DecidableEq, Repr

/-- The decision `register_agent` reaches before any network call:
reconstruct a client from stored credentials (no server contact), proceed
to registration in a given authentication mode (with the resolved server
URL and SDK token id), or fail with `ConfigurationError`. -/
inductive RegisterOutcome where
  | loaded : StoredAgentCreds → RegisterOutcome
  | proceed : Bool → Option String → Option String → RegisterOutcome
  | configError : String → RegisterOutcome
deriving DecidableEq, Repr

/-- `proceed` mode flag for API-key mode (`auth_mode = "api_key"`). -/
def apiKeyMode : Bool := true

/-- `proceed` mode flag for OAuth mode (`auth_mode = "oauth"`). -/
def oauthMode : Bool := false

/-- Python `x or y` on optional strings. -/
def pyOr (a b : Option String) : Option String :=
  if pyTruthyOS a then a else b

/-- Step 2 of `register_agent` (client.py lines 1913-1948):
authentication-mode selection.  Forced API-key mode when an api_key is
passed with `sdk_token_id is None`, else OAuth mode when embedded SDK
credentials exist (resolving `aim_url`/`sdk_token_id` with Python `or`),
else API-key mode when an api_key is supplied, else `ConfigurationError`. -/
def select_auth_mode (sdk_creds : Option SdkCreds)
    (aim_url api_key sdk_token_id : Option String) : RegisterOutcome :=
  if sdk_token_id = none ∧ pyTruthyOS api_key then
    if ¬ pyTruthyOS aim_url then
      .configError "aim_url is required when using API key mode"
    else .proceed apiKeyMode aim_url sdk_token_id
  else
    match sdk_creds with
    | some sc =>
        let url := pyOr aim_url sc.aim_url
        let tok := pyOr sdk_token_id sc.sdk_token_id
        if ¬ pyTruthyOS url then .configError "aim_url not found in SDK credentials"
        else .proceed oauthMode url tok
    | none =>
        if pyTruthyOS api_key then
          if ¬ pyTruthyOS aim_url then
            .configError "aim_url is required when using API key mode"
          else .proceed apiKeyMode aim_url sdk_token_id
        else .configError "No authentication credentials found"

/-- Steps 1-2 of `register_agent` (client.py lines 1883-1948): the
load-existing short-circuit (unless `force_new`), then authentication-mode
selection. -/
def register_agent_mode (force_new : Bool) (stored : Option StoredAgentCreds)
    (sdk_creds : Option SdkCreds) (aim_url api_key sdk_token_id : Option String) :
    RegisterOutcome :=
  if ¬ force_new then
    match stored with
    | some c => .loaded c
    | none => select_auth_mode sdk_creds aim_url api_key sdk_token_id
  else select_auth_mode sdk_creds aim_url api_key sdk_token_id

/-! ## Theorems -/

/-- C4: the bytes signed for a VerificationRequest are the canonical JSON
(keys sorted lexicographically, separators exactly ", " and ": ") of the
object holding agent_id, action_type, resource, context and timestamp;
the payload's keys are exactly those five, sorted, with signature and
public_key absent (though present in the request body); and the message is
the same whatever field order a serializer honoring the canonicalization
rules starts from, hence a deterministic function of the tuple. -/
theorem c4_canonical_signature_bytes (agent_id action_type : String)
    (resource : Option String) (context : List (String × Json))
    (timestamp signature public_key : String) :
    signature_message agent_id action_type resource context timestamp
      = dumpsVal ", " ": " (.obj
          [("agent_id", .str agent_id),
           ("action_type", .str action_type),
           ("resource", optStr resource),
           ("context", .obj context),
           ("timestamp", .str timestamp)])
    ∧ (signature_payload agent_id action_type resource context timestamp).map Prod.fst
        = ["action_type", "agent_id", "context", "resource", "timestamp"]
    ∧ List.Sorted (· < ·)
        ((signature_payload agent_id action_type resource context timestamp).map Prod.fst)
    ∧ "signature" ∉
        (signature_payload agent_id action_type resource context timestamp).map Prod.fst
    ∧ "public_key" ∉
        (signature_payload agent_id action_type resource context timestamp).map Prod.fst
    ∧ "signature" ∈ (request_payload agent_id action_type resource context
        timestamp signature public_key).map Prod.fst
    ∧ "public_key" ∈ (request_payload agent_id action_type resource context
        timestamp signature public_key).map Prod.fst := by
  refine ⟨?_, rfl, ?_, ?_, ?_, ?_, ?_⟩
  · simp +decide [signature_message, signature_payload, dumpsVal, dumpsPairs,
      sortPairs, insertPair]
  · simp +decide [signature_payload, List.sorted_cons]
  · simp +decide [signature_payload]
  · simp +decide [signature_payload]
  · simp +decide [request_payload]
  · simp +decide [request_payload]

/-- C1: `verify_action` decides by the server response: `approved` returns a
verified record; `denied` raises `ActionDeniedError` with the reason; 401/403
raise `AuthenticationError` immediately; 404, any other HTTP error status
(including all 5xx) and transport failures return the synthetic
`pending` record with `verified=False`, `verification_id=None` and an
`error` field, without raising. -/
theorem c1_verify_action_outcomes (text : String) (b : Except String BodyFields)
    (bf : BodyFields) (rs : List NetResponse) (t : ℚ) (c : Nat) (s : String) :
    (c < 400 → bf.status = some "approved" →
      verify_action (.http c text (.ok bf)) rs t
        = .result (.ok
            { verified := true, verification_id := bf.id, status := none,
              approved_by := bf.approvedBy, expires_at := bf.expiresAt, error := none }))
    ∧ (c < 400 → bf.status = some "denied" →
      verify_action (.http c text (.ok bf)) rs t
        = .result (.error (.actionDenied
            ("Action denied: " ++ bf.denialReason.getD "Action denied by policy"))))
    ∧ verify_action (.http 401 text b) rs t
        = .result (.error (.authentication
            ("Authentication failed - invalid agent credentials: " ++ authDetail text b)))
    ∧ verify_action (.http 403 text b) rs t
        = .result (.error (.authentication "Forbidden - insufficient permissions"))
    ∧ verify_action (.http 404 text b) rs t
        = .result (.ok (syntheticPending "Endpoint not found - server may not be available"))
    ∧ (500 ≤ c →
      verify_action (.http c text b) rs t
        = .result (.ok (syntheticPending (http_error_msg c text b))))
    ∧ verify_action (.netError s) rs t
        = .result (.ok (syntheticPending ("Network error: " ++ s))) := by
  refine ⟨?_, ?_, ?_, ?_, ?_, ?_, ?_⟩
  · intro h1 h2
    have e1 : c ≠ 401 := by omega
    have e2 : c ≠ 403 := by omega
    have e3 : c ≠ 404 := by omega
    have e4 : ¬ (400 ≤ c) := by omega
    simp [verify_action, verify_action_try, e1, e2, e3, e4, h2]
  · intro h1 h2
    have e1 : c ≠ 401 := by omega
    have e2 : c ≠ 403 := by omega
    have e3 : c ≠ 404 := by omega
    have e4 : ¬ (400 ≤ c) := by omega
    simp [verify_action, verify_action_try, e1, e2, e3, e4, h2]
  · simp [verify_action, verify_action_try]
  · simp [verify_action, verify_action_try]
  · simp [verify_action, verify_action_try]
  · intro h
    have e1 : c ≠ 401 := by omega
    have e2 : c ≠ 403 := by omega
    have e3 : c ≠ 404 := by omega
    have e4 : 400 ≤ c := by omega
    simp [verify_action, verify_action_try, e1, e2, e3, e4]
  · simp [verify_action, verify_action_try]

/-- C1 witness at concrete inputs. -/
theorem c1_verify_action_outcomes_witness :
    verify_action (.http 200 ""
        (.ok
          { id := some "v1", status := some "approved", approvedBy := some "admin",
            expiresAt := some "2026-01-01T00:00:00Z", denialReason := none,
            errorMsg := none })) [] 300
      = .result (.ok
          { verified := true, verification_id := some "v1", status := none,
            approved_by := some "admin", expires_at := some "2026-01-01T00:00:00Z",
            error := none }) :=
  (c1_verify_action_outcomes "" (.error "boom")
      { id := some "v1", status := some "approved", approvedBy := some "admin",
        expiresAt := some "2026-01-01T00:00:00Z", denialReason := none, errorMsg := none }
      [] 300 200 "x").1 (by omega) rfl

/-- C8 counterexample: on an unexpected verification status (here "weird"),
`verify_action` does not raise `VerificationError` — the final
`except Exception` handler catches it and returns the synthetic pending
record instead. -/
theorem c8_counterexample :
    verify_action
      (.http 200 ""
        (.ok
          { id := some "v1", status := some "weird", approvedBy := none,
            expiresAt := none, denialReason := none, errorMsg := none })) [] 300
      = .result (.ok (syntheticPending
          "Unexpected error: VerificationError: Unexpected verification status: weird")) := by
  rfl

/-- C8 amended: a timeout while waiting for approval or an unexpected server
status raises `VerificationError` inside the `try:` block, but
`verify_action`'s final `except Exception` handler catches it and returns
the synthetic pending record with an `error` field; no `VerificationError`
ever propagates out of `verify_action`. -/
theorem c8_verification_error_swallowed (c : Nat) (text : String) (bf : BodyFields)
    (rs : List NetResponse) (t : ℚ) (s : String) (resp : NetResponse) :
    (c < 400 → bf.status = some s → s ≠ "approved" → s ≠ "denied" → s ≠ "pending" →
      verify_action (.http c text (.ok bf)) rs t
        = .result (.ok (syntheticPending
            ("Unexpected error: VerificationError: "
              ++ ("Unexpected verification status: " ++ s)))))
    ∧ (c < 400 → bf.status = some "pending" → t ≤ 0 →
      verify_action (.http c text (.ok bf)) rs t
        = .result (.ok (syntheticPending
            ("Unexpected error: VerificationError: "
              ++ ("Verification timeout after " ++ toString t ++ " seconds")))))
    ∧ ∀ m, verify_action resp rs t ≠ .result (.error (.verification m)) := by
  refine ⟨?_, ?_, ?_⟩
  · intro h1 h2 ha hd hp
    have e1 : c ≠ 401 := by omega
    have e2 : c ≠ 403 := by omega
    have e3 : c ≠ 404 := by omega
    have e4 : ¬ (400 ≤ c) := by omega
    simp [verify_action, verify_action_try, e1, e2, e3, e4, h2, ha, hd, hp, statusRepr]
  · intro h1 h2 ht
    have e1 : c ≠ 401 := by omega
    have e2 : c ≠ 403 := by omega
    have e3 : c ≠ 404 := by omega
    have e4 : ¬ (400 ≤ c) := by omega
    have ht' : ¬ ((0 : ℚ) < t) := by exact not_lt.mpr ht
    simp [verify_action, verify_action_try, e1, e2, e3, e4, h2,
      wait_for_approval, waitLoop.eq_def, ht']
  · intro m
    rcases hv : verify_action_try resp rs t with vo | _
    · rcases vo with e | r
      · rcases e with m' | m' | m' <;> simp [verify_action, hv]
      · simp [verify_action, hv]
    · simp [verify_action, hv]

/-- C8 amended witness at concrete inputs. -/
theorem c8_verification_error_swallowed_witness :
    verify_action
      (.http 200 "t"
        (.ok
          { id := none, status := some "bogus", approvedBy := none,
            expiresAt := none, denialReason := none, errorMsg := none })) [] 300
      = .result (.ok (syntheticPending
          "Unexpected error: VerificationError: Unexpected verification status: bogus")) :=
  (c8_verification_error_swallowed 200 "t"
      { id := none, status := some "bogus", approvedBy := none,
        expiresAt := none, denialReason := none, errorMsg := none }
      [] 300 "bogus" (.netError "x")).1 (by omega) rfl
    (by decide) (by decide) (by decide)

/-- C2: in a wrapped call the body runs at most once and only after an
error-free `verified=true` decision; the trace is strictly
verify → execute → log; when the body ran, exactly one result log is
attempted, with success flag true iff the body returned without exception;
and on a body exception the failure log precedes the returned
`execution_failed` error record. -/
theorem c2_wrapper_ordering {α : Type} (action : String) (vo : Except AimError VRecord)
    (body : Except PyExc α) :
    ((tracked_call action vo body).2.count .execute ≤ 1)
    ∧ (.execute ∈ (tracked_call action vo body).2 →
        ∃ r, vo = .ok r ∧ r.verified = true ∧ pyTruthyS r.error = false)
    ∧ ((tracked_call action vo body).2 = [.verify]
        ∨ ∃ b, (tracked_call action vo body).2 = [.verify, .execute, .logResult b]
            ∧ (b = true ↔ ∃ v, body = .ok v))
    ∧ (∀ exc, body = .error exc → .execute ∈ (tracked_call action vo body).2 →
        tracked_call action vo body
          = (.errorRecord exc.name exc.msg action "execution_failed",
             [.verify, .execute, .logResult false])) := by
  rcases vo with e | r
  · refine ⟨by simp [tracked_call], by simp [tracked_call], ?_, ?_⟩
    · left
      simp [tracked_call]
    · intro exc hb hex
      simp [tracked_call] at hex
  · by_cases he : pyTruthyS r.error
    · refine ⟨by simp [tracked_call, he], by simp [tracked_call, he], ?_, ?_⟩
      · left
        simp [tracked_call, he]
      · intro exc hb hex
        simp [tracked_call, he] at hex
    · by_cases hv : r.verified
      · rcases body with exc | v
        · refine ⟨by simp [tracked_call, he, hv], ?_, ?_, ?_⟩
          · intro _
            exact ⟨r, rfl, hv, by simpa using he⟩
          · right
            refine ⟨false, by simp [tracked_call, he, hv], by simp⟩
          · intro exc2 hb _
            have : exc2 = exc := by
              injection hb with h
              exact h.symm
            subst this
            simp [tracked_call, he, hv]
        · refine ⟨by simp [tracked_call, he, hv], ?_, ?_, ?_⟩
          · intro _
            exact ⟨r, rfl, hv, by simpa using he⟩
          · right
            exact ⟨true, by simp [tracked_call, he, hv], by simp⟩
          · intro exc hb
            simp at hb
      · refine ⟨by simp [tracked_call, he, hv], by simp [tracked_call, he, hv], ?_, ?_⟩
        · left
          simp [tracked_call, he, hv]
        · intro exc hb hex
          simp [tracked_call, he, hv] at hex

/-- C10 counterexample: when the server answers `denied`, `verify_action`
raises `ActionDeniedError`, which the wrapper's generic handler around the
verification call converts to an error record with
`error_type = "ActionDeniedError"` and `status = "verification_failed"` —
not the `\x7berror_type: "ActionDenied", status: "denied"\x7d` record the
claim expects.  The wrapped body is still not invoked and no result log is
attempted. -/
theorem c10_counterexample :
    track_action_run "delete_file"
      (.http 200 ""
        (.ok
          { id := some "v1", status := some "denied", approvedBy := none,
            expiresAt := none, denialReason := some "policy:write", errorMsg := none }))
      [] 300 (.ok (0 : Nat))
      = some (.errorRecord "ActionDeniedError" "Action denied: policy:write"
          "delete_file" "verification_failed", [.verify]) := by
  rfl

/-- C10 amended: for a `denied` server response under a `track_action`
wrapper, the wrapped function is not invoked and no result-log POST is made,
but the returned record is `\x7berror: True, error_type: "ActionDeniedError",
status: "verification_failed"\x7d` (the `ActionDeniedError` raised by
`verify_action` is caught by the wrapper's generic exception handler), not
`\x7berror_type: "ActionDenied", status: "denied"\x7d`. -/
theorem c10_denied_wrapped {α : Type} (action : String) (c : Nat) (text : String)
    (bf : BodyFields) (rs : List NetResponse) (t : ℚ) (body : Except PyExc α)
    (hc : c < 400) (hs : bf.status = some "denied") :
    track_action_run action (.http c text (.ok bf)) rs t body
      = some (.errorRecord "ActionDeniedError"
          ("Action denied: " ++ bf.denialReason.getD "Action denied by policy")
          action "verification_failed", [.verify]) := by
  have e1 : c ≠ 401 := by omega
  have e2 : c ≠ 403 := by omega
  have e3 : c ≠ 404 := by omega
  have e4 : ¬ (400 ≤ c) := by omega
  simp [track_action_run, verify_action, verify_action_try, e1, e2, e3, e4, hs,
    tracked_call, err_name, err_msg]

/-- C10 amended witness at concrete inputs. -/
theorem c10_denied_wrapped_witness :
    track_action_run "send_mail"
      (.http 201 "x"
        (.ok
          { id := none, status := some "denied", approvedBy := none,
            expiresAt := none, denialReason := none, errorMsg := none }))
      [] 60 (.ok (1 : Nat))
      = some (.errorRecord "ActionDeniedError" "Action denied: Action denied by policy"
          "send_mail" "verification_failed", [.verify]) :=
  c10_denied_wrapped "send_mail" 201 "x"
    { id := none, status := some "denied", approvedBy := none,
      expiresAt := none, denialReason := none, errorMsg := none }
    [] 60 (.ok 1) (by omega) rfl

/-- C2 witness: a concrete wrapped call whose body throws — the theorem's
final clause applied at concrete inputs. -/
theorem c2_wrapper_ordering_witness :
    tracked_call "act"
      (.ok
        { verified := true, verification_id := some "v1", status := none,
          approved_by := none, expires_at := none, error := none })
      (.error { name := "ValueError", msg := "boom" } : Except PyExc Nat)
      = (.errorRecord "ValueError" "boom" "act" "execution_failed",
         [.verify, .execute, .logResult false]) :=
  (c2_wrapper_ordering "act"
      (.ok
        { verified := true, verification_id := some "v1", status := none,
          approved_by := none, expires_at := none, error := none })
      (.error { name := "ValueError", msg := "boom" })).2.2.2
    { name := "ValueError", msg := "boom" } rfl (by decide)

/-- C4 witness: the canonical signing bytes at concrete inputs. -/
theorem c4_canonical_signature_bytes_witness :
    signature_message "aid-1" "read_files" (some "/tmp/x") [] "2026-01-01T00:00:00Z"
      = dumpsVal ", " ": " (.obj
          [("agent_id", .str "aid-1"),
           ("action_type", .str "read_files"),
           ("resource", optStr (some "/tmp/x")),
           ("context", .obj []),
           ("timestamp", .str "2026-01-01T00:00:00Z")]) :=
  (c4_canonical_signature_bytes "aid-1" "read_files" (some "/tmp/x") []
    "2026-01-01T00:00:00Z" "sig" "pk").1

theorem backoff_zero : backoff 0 = 2 := by
  norm_num [backoff]

theorem backoff_le_ten (n : ℕ) : backoff n ≤ 10 :=
  min_le_right _ _

theorem backoff_succ (k : ℕ) : min (backoff k * (3 / 2)) 10 = backoff (k + 1) := by
  rcases le_or_lt (2 * (3 / 2 : ℚ) ^ k) 10 with h | h
  · rw [backoff, min_eq_left h, backoff, pow_succ]
    ring_nf
  · have h1 : backoff k = 10 := by
      rw [backoff, min_eq_right h.le]
    have h2 : (10 : ℚ) ≤ 2 * (3 / 2) ^ (k + 1) := by
      have : (2 : ℚ) * (3 / 2) ^ k * 1 ≤ 2 * (3 / 2) ^ k * (3 / 2) := by
        have hp : (0 : ℚ) < 2 * (3 / 2) ^ k := by positivity
        nlinarith
      calc (10 : ℚ) ≤ 2 * (3 / 2) ^ k := h.le
        _ = 2 * (3 / 2) ^ k * 1 := by ring
        _ ≤ 2 * (3 / 2) ^ k * (3 / 2) := this
        _ = 2 * (3 / 2) ^ (k + 1) := by rw [pow_succ]; ring
    rw [h1, backoff, min_eq_right h2]
    norm_num

theorem waitLoop_step_next (t : ℚ) (vid : Option String) (r : NetResponse)
    (rest : List NetResponse) (e i : ℚ) (hg : e < t) (hr : pollStep vid r = .next) :
    waitLoop t vid (r :: rest) e i
      = ((waitLoop t vid rest (e + i) (min (i * (3 / 2)) 10)).1,
         i :: (waitLoop t vid rest (e + i) (min (i * (3 / 2)) 10)).2) := by
  rw [waitLoop.eq_def]
  simp [hg, hr]

theorem waitLoop_step_term (t : ℚ) (vid : Option String) (r : NetResponse)
    (rest : List NetResponse) (e i : ℚ) (out : Except AimError VRecord)
    (hg : e < t) (hr : pollStep vid r = .term out) :
    waitLoop t vid (r :: rest) e i = (.done out, []) := by
  rw [waitLoop.eq_def]
  simp [hg, hr]

theorem waitLoop_deadline (t : ℚ) (vid : Option String) (rs : List NetResponse)
    (e i : ℚ) (hg : ¬ e < t) :
    waitLoop t vid rs e i
      = (.done (.error (.verification
          ("Verification timeout after " ++ toString t ++ " seconds"))), []) := by
  rw [waitLoop.eq_def]
  simp [hg]

theorem backSum_succ (k j : ℕ) : backSum k (j + 1) = backoff k + backSum (k + 1) j :=
  rfl

/-- Running the loop through a block of transient (continue-class) responses
advances elapsed time by the corresponding backoff sleeps and leaves the
loop polling the remaining responses. -/
theorem waitLoop_cont (t : ℚ) (vid : Option String) (pre rest : List NetResponse)
    (e : ℚ) (k : ℕ)
    (hc : ∀ r ∈ pre, pollStep vid r = .next)
    (hg : ∀ j, j < pre.length → e + backSum k j < t) :
    waitLoop t vid (pre ++ rest) e (backoff k)
      = ((waitLoop t vid rest (e + backSum k pre.length) (backoff (k + pre.length))).1,
         (List.range pre.length).map (fun i => backoff (k + i))
           ++ (waitLoop t vid rest (e + backSum k pre.length) (backoff (k + pre.length))).2) := by
  induction pre generalizing e k with
  | nil =>
      simp [backSum]
  | cons r pre ih =>
      have hg0 : e < t := by
        have := hg 0 (by simp)
        simpa [backSum] using this
      have hr : pollStep vid r = .next := hc r (by simp)
      rw [List.cons_append, waitLoop_step_next t vid r (pre ++ rest) e (backoff k) hg0 hr,
        backoff_succ]
      have ih' := ih (e + backoff k) (k + 1)
        (fun r hr2 => hc r (by simp [hr2]))
        (fun j hj => by
          have := hg (j + 1) (by simpa using Nat.succ_lt_succ hj)
          rw [backSum_succ] at this
          linarith)
      rw [ih']
      have hsum : e + backoff k + backSum (k + 1) pre.length
          = e + backSum k (pre.length + 1) := by
        rw [backSum_succ]
        ring
      have hidx : k + 1 + pre.length = k + (pre.length + 1) := by omega
      rw [hsum, hidx]
      simp only [List.length_cons, Prod.mk.injEq, true_and]
      rw [List.range_succ_eq_map, List.map_cons, List.map_map]
      congr 1
      congr 1
      refine List.map_congr_left (fun a _ => ?_)
      simp only [Function.comp_apply]
      congr 1
      omega

/-- The sleeps performed by the polling loop follow the backoff sequence:
if the loop entered with interval `backoff k`, the n-th sleep is
`backoff (k + n)`. -/
theorem waitLoop_sleeps (t : ℚ) (vid : Option String) :
    ∀ (rs : List NetResponse) (e : ℚ) (k : ℕ),
      (waitLoop t vid rs e (backoff k)).2
        = (List.range (waitLoop t vid rs e (backoff k)).2.length).map
            (fun i => backoff (k + i)) := by
  intro rs
  induction rs with
  | nil =>
      intro e k
      rw [waitLoop.eq_def]
      by_cases hg : e < t <;> simp [hg]
  | cons r rest ih =>
      intro e k
      by_cases hg : e < t
      · rcases hstep : pollStep vid r with out | _
        · rw [waitLoop_step_term t vid r rest e (backoff k) out hg hstep]
          simp
        · rw [waitLoop_step_next t vid r rest e (backoff k) hg hstep, backoff_succ]
          simp only
          rw [ih (e + backoff k) (k + 1)]
          simp only [List.length_cons, List.length_map, List.length_range]
          rw [List.range_succ_eq_map, List.map_cons, List.map_map]
          congr 1
          refine List.map_congr_left (fun a _ => ?_)
          simp only [Function.comp_apply]
          congr 1
          omega
      · rw [waitLoop_deadline t vid _ e _ hg]
        simp

/-- C3 counterexample: while polling, an HTTP 404 response makes
`_wait_for_approval` raise `VerificationError` immediately — it does not log
and continue polling until the deadline, although the very next response
would have been `approved` and the deadline (100 s) is far away. -/
theorem c3_counterexample :
    (wait_for_approval 100 (some "v1")
        [.http 404 "" (.error "not found"),
         .http 200 ""
           (.ok
             { id := some "v1", status := some "approved", approvedBy := none,
               expiresAt := none, denialReason := none, errorMsg := none })]).1
      = .done (.error (.verification
          "Verification endpoint not available - cannot complete approval process")) := by
  rfl

/-- C3 amended: `_wait_for_approval` polls with sleeps following the exact
backoff sequence `min (2 * 1.5^n) 10`; transient responses (network errors,
HTTP errors other than 401/403/404, JSON failures, non-terminal statuses)
are polled through and the first `approved` within the deadline returns the
verified record, the first `denied` raises `ActionDeniedError`; but a 401 or
403 poll response raises `AuthenticationError` and a 404 raises
`VerificationError` immediately rather than continuing until the deadline;
and once the deadline has elapsed the loop raises the timeout
`VerificationError`. -/
theorem c3_wait_for_approval_amended (t : ℚ) (vid : Option String) :
    (∀ rs, (wait_for_approval t vid rs).2
        = (List.range (wait_for_approval t vid rs).2.length).map backoff)
    ∧ (∀ pre rest text c bf, (∀ r ∈ pre, pollStep vid r = .next) →
        (∀ j, j ≤ pre.length → backSum 0 j < t) → c < 400 →
        bf.status = some "approved" →
        (wait_for_approval t vid (pre ++ .http c text (.ok bf) :: rest)).1
          = .done (.ok
              { verified := true, verification_id := vid, status := none,
                approved_by := bf.approvedBy, expires_at := bf.expiresAt, error := none }))
    ∧ (∀ pre rest text c bf, (∀ r ∈ pre, pollStep vid r = .next) →
        (∀ j, j ≤ pre.length → backSum 0 j < t) → c < 400 →
        bf.status = some "denied" →
        (wait_for_approval t vid (pre ++ .http c text (.ok bf) :: rest)).1
          = .done (.error (.actionDenied
              ("Action denied: " ++ bf.denialReason.getD "Action denied"))))
    ∧ (∀ text b rest e i, e < t →
        (waitLoop t vid (.http 401 text b :: rest) e i).1
          = .done (.error (.authentication
              "Authentication failed - invalid agent credentials")))
    ∧ (∀ text b rest e i, e < t →
        (waitLoop t vid (.http 403 text b :: rest) e i).1
          = .done (.error (.authentication "Forbidden - insufficient permissions")))
    ∧ (∀ text b rest e i, e < t →
        (waitLoop t vid (.http 404 text b :: rest) e i).1
          = .done (.error (.verification
              "Verification endpoint not available - cannot complete approval process")))
    ∧ (∀ rs e i, t ≤ e →
        (waitLoop t vid rs e i).1
          = .done (.error (.verification
              ("Verification timeout after " ++ toString t ++ " seconds")))) := by
  have h2 : (2 : ℚ) = backoff 0 := backoff_zero.symm
  refine ⟨?_, ?_, ?_, ?_, ?_, ?_, ?_⟩
  · intro rs
    have h := waitLoop_sleeps t vid rs 0 0
    simp only [Nat.zero_add] at h
    rw [wait_for_approval, h2]
    exact h
  · intro pre rest text c bf hc hg hcode hst
    have e1 : c ≠ 401 := by omega
    have e2 : c ≠ 403 := by omega
    have e3 : c ≠ 404 := by omega
    have e4 : ¬ (400 ≤ c) := by omega
    have hstep : pollStep vid (.http c text (.ok bf))
        = .term (.ok
            { verified := true, verification_id := vid, status := none,
              approved_by := bf.approvedBy, expires_at := bf.expiresAt, error := none }) := by
      simp [pollStep, e1, e2, e3, e4, hst]
    rw [wait_for_approval, h2,
      waitLoop_cont t vid pre _ 0 0 hc (fun j hj => by simpa using hg j hj.le),
      waitLoop_step_term t vid _ rest _ _ _ (by simpa using hg pre.length le_rfl) hstep]
  · intro pre rest text c bf hc hg hcode hst
    have e1 : c ≠ 401 := by omega
    have e2 : c ≠ 403 := by omega
    have e3 : c ≠ 404 := by omega
    have e4 : ¬ (400 ≤ c) := by omega
    have hstep : pollStep vid (.http c text (.ok bf))
        = .term (.error (.actionDenied
            ("Action denied: " ++ bf.denialReason.getD "Action denied"))) := by
      simp [pollStep, e1, e2, e3, e4, hst]
    rw [wait_for_approval, h2,
      waitLoop_cont t vid pre _ 0 0 hc (fun j hj => by simpa using hg j hj.le),
      waitLoop_step_term t vid _ rest _ _ _ (by simpa using hg pre.length le_rfl) hstep]
  · intro text b rest e i hg
    rw [waitLoop_step_term t vid _ rest e i
      (.error (.authentication "Authentication failed - invalid agent credentials"))
      hg (by simp [pollStep])]
  · intro text b rest e i hg
    rw [waitLoop_step_term t vid _ rest e i
      (.error (.authentication "Forbidden - insufficient permissions"))
      hg (by simp [pollStep])]
  · intro text b rest e i hg
    rw [waitLoop_step_term t vid _ rest e i
      (.error (.verification
        "Verification endpoint not available - cannot complete approval process"))
      hg (by simp [pollStep])]
  · intro rs e i hg
    rw [waitLoop_deadline t vid rs e i (not_lt.mpr hg)]

/-- C3 amended witness: one transient network error, then `approved`. -/
theorem c3_wait_for_approval_amended_witness :
    (wait_for_approval 30 (some "w")
        [.netError "refused",
         .http 200 ""
           (.ok
             { id := some "w", status := some "approved", approvedBy := none,
               expiresAt := none, denialReason := none, errorMsg := none })]).1
      = .done (.ok
          { verified := true, verification_id := some "w", status := none,
            approved_by := none, expires_at := none, error := none }) :=
  (c3_wait_for_approval_amended 30 (some "w")).2.1 [.netError "refused"] [] "" 200
    { id := some "w", status := some "approved", approvedBy := none,
      expiresAt := none, denialReason := none, errorMsg := none }
    (fun r hr => by rw [List.mem_singleton] at hr; subst hr; rfl)
    (fun j hj => by
      have hj1 : j ≤ 1 := by simpa using hj
      interval_cases j <;> norm_num [backSum, backoff])
    (by omega) rfl

/-- C5: with an Ed25519 signing key present, `_make_request` signs the
newline-join of uppercase method, path, decimal Unix timestamp and — only
when a body is present — the sorted-keys JSON of the body; attaches the
X-Agent-ID / X-Signature / X-Timestamp / X-Public-Key headers; and when a
body is present transmits exactly the pre-serialized bytes that were
signed. -/
theorem c5_envelope_signing (sign : String → String) (agent_id public_key : String)
    (api_key oauth_token : Option String) (method endpoint : String) (ts : ℕ)
    (data : Option (List (String × Json)))
    (h1 : agent_id ≠ "") (h2 : public_key ≠ "") :
    (make_request_prep sign true agent_id public_key api_key oauth_token
        method endpoint ts data).message
      = some (spec_envelope_message method endpoint ts data)
    ∧ (make_request_prep sign true agent_id public_key api_key oauth_token
        method endpoint ts data).headers
      = [("X-Agent-ID", agent_id),
         ("X-Signature", sign (spec_envelope_message method endpoint ts data)),
         ("X-Timestamp", toString ts), ("X-Public-Key", public_key)]
        ++ (if pyTruthyObj data then [("Content-Type", "application/json")] else [])
    ∧ (pyTruthyObj data = true →
        (make_request_prep sign true agent_id public_key api_key oauth_token
            method endpoint ts data).body
          = .raw (dumpsVal ", " ": " (.obj (data.getD [])))
        ∧ spec_envelope_message method endpoint ts data
          = String.intercalate "\n"
              [method.toUpper, endpoint, toString ts,
               dumpsVal ", " ": " (.obj (data.getD []))])
    ∧ (pyTruthyObj data = false →
        (make_request_prep sign true agent_id public_key api_key oauth_token
            method endpoint ts data).body = .auto data) := by
  by_cases hd : pyTruthyObj data <;>
    simp [make_request_prep, spec_envelope_message, hd, h1, h2]

/-- C5 witness at concrete inputs. -/
theorem c5_envelope_signing_witness :
    (make_request_prep (fun s => s) true "A" "PK" none none "post" "/api/v1/agents/x"
        1700000000 (some [("name", .str "n")])).message
      = some (spec_envelope_message "post" "/api/v1/agents/x" 1700000000
          (some [("name", .str "n")])) :=
  (c5_envelope_signing (fun s => s) "A" "PK" none none "post" "/api/v1/agents/x"
    1700000000 (some [("name", .str "n")]) (by decide) (by decide)).1

/-- C6 counterexample: with the secure-storage packages unavailable,
`OAuthTokenManager.save_credentials` writes the credentials — private key
included — as plaintext JSON instead of failing; and
`_save_credentials` always serializes the private key into the plaintext
credentials file. -/
theorem c6_counterexample :
    oauth_save_credentials false
        [("private_key", .str "SECRET"), ("refresh_token", .str "rt")]
      = .plaintext [("private_key", .str "SECRET"), ("refresh_token", .str "rt")]
    ∧ save_credentials_file [] "agent-a"
        { agent_id := "id1", public_key := "pk", private_key := "SECRET",
          aim_url := "http://x", status := none, trust_score := none } "2026-01-01"
      = .plaintextJson
          [("agent-a",
            [("agent_id", .str "id1"), ("public_key", .str "pk"),
             ("private_key", .str "SECRET"), ("aim_url", .str "http://x"),
             ("status", .str "unknown"), ("trust_score", .null),
             ("registered_at", .str "2026-01-01")])] :=
  ⟨rfl, rfl⟩

/-- C6 amended: `SecureCredentialStorage` itself refuses to initialize
without `cryptography` and `keyring`, but the credential-save paths do not:
`OAuthTokenManager.save_credentials` falls back to plaintext JSON when
secure storage is unavailable, and `_save_credentials` always writes the
credentials file — private key included — as plaintext JSON (with
owner-only permissions). -/
theorem c6_plaintext_persistence (creds : List (String × Json))
    (store : List (String × List (String × Json))) (name registered_at : String)
    (rc : RegCredentials) (ca ka : Bool) :
    oauth_save_credentials false creds = .plaintext creds
    ∧ save_credentials_file store name rc registered_at
        = .plaintextJson (upsert store name (save_credentials_entry rc registered_at))
    ∧ ("private_key", Json.str rc.private_key) ∈ save_credentials_entry rc registered_at
    ∧ (¬ ca ∨ ¬ ka →
        secure_storage_init ca ka
          = .error "SECURITY ERROR: required packages not installed") := by
  refine ⟨rfl, rfl, by simp [save_credentials_entry], ?_⟩
  intro h
  rcases h with h | h <;> simp [secure_storage_init, h]

/-- C6 amended witness at concrete inputs. -/
theorem c6_plaintext_persistence_witness :
    secure_storage_init false true
      = .error "SECURITY ERROR: required packages not installed" :=
  (c6_plaintext_persistence [] [] "n" "t"
      { agent_id := "", public_key := "", private_key := "", aim_url := "",
        status := none, trust_score := none } false true).2.2.2
    (Or.inl (by decide))

/-- C7 counterexample: with the recorded expiry exactly 60 seconds away
(now = 40, expiry = 100), `get_access_token` does not return the cached
token — the guard is the strict `time.time() < expiry - 60` — and instead
refreshes, returning the new token after one POST to
`/api/v1/auth/refresh`. -/
theorem c7_counterexample :
    get_access_token_fn (fun _ => none) (fun _ => none) 40
        { credentials := some
            { aim_url := some "http://x", refresh_token := some "rt",
              sdk_token_id := none },
          access_token := some "tok", access_token_expiry := some 100 }
        { statusCode := 200, errorMsg := "", access_token := some "newtok",
          refresh_token := none }
        { statusCode := 500, access_token := none, refresh_token := none }
      = (some "newtok",
         { credentials := some
             { aim_url := some "http://x", refresh_token := some "rt",
               sdk_token_id := none },
           access_token := some "newtok", access_token_expiry := some 3640 },
         [{ url := "http://x/api/v1/auth/refresh", token := "rt" }]) := by
  simp [get_access_token_fn, refresh_token_fn, pyTruthyOS, pyTruthyQ, rstrip_slash]
  norm_num

/-- C7 amended: `get_access_token()` returns the cached access token
whenever the recorded expiry is strictly more than 60 seconds away;
otherwise it refreshes, POSTing to `/api/v1/auth/refresh` with the current
refresh token; and when the refreshed access token's payload cannot be
decoded, its expiry defaults to one hour from the time of refresh. -/
theorem c7_get_access_token (decodeExp : String → Option (Option ℚ))
    (decodeJti : String → Option String) (now : ℚ) (st : TokenState)
    (resp : RefreshResponse) (rec : RecoveryResponse) (creds : TokenCreds)
    (rt tok at1 : String) (e : ℚ) :
    (st.credentials = some creds → st.access_token = some tok → tok ≠ "" →
      st.access_token_expiry = some e → e ≠ 0 → now < e - 60 →
      get_access_token_fn decodeExp decodeJti now st resp rec = (some tok, st, []))
    ∧ (st.credentials = some creds → creds.refresh_token = some rt →
        ¬ (pyTruthyOS st.access_token ∧ pyTruthyQ st.access_token_expiry
            ∧ now < st.access_token_expiry.getD 0 - 60) →
        (get_access_token_fn decodeExp decodeJti now st resp rec).2.2.head?
          = some { url := rstrip_slash (creds.aim_url.getD "http://localhost:8080")
                    ++ "/api/v1/auth/refresh", token := rt })
    ∧ (st.credentials = some creds → creds.refresh_token = some rt →
        ¬ (pyTruthyOS st.access_token ∧ pyTruthyQ st.access_token_expiry
            ∧ now < st.access_token_expiry.getD 0 - 60) →
        resp.statusCode = 200 → resp.access_token = some at1 → at1 ≠ "" →
        decodeExp at1 = none →
        (get_access_token_fn decodeExp decodeJti now st resp rec).1 = some at1
        ∧ (get_access_token_fn decodeExp decodeJti now st resp rec).2.1.access_token_expiry
            = some (now + 3600)) := by
  refine ⟨?_, ?_, ?_⟩
  · intro hcred htok hne hexp he0 hlt
    simp [get_access_token_fn, hcred, htok, hexp, pyTruthyOS, pyTruthyQ, hne, he0, hlt]
  · intro hcred hrt hcv
    simp only [get_access_token_fn, hcred]
    rw [if_neg hcv]
    simp only [refresh_token_fn, hcred, hrt]
    split
    · split
      · split
        · split <;> simp
        · simp
      · simp
    · simp
  · intro hcred hrt hcv h200 hat hne hdec
    simp only [get_access_token_fn, hcred]
    rw [if_neg hcv]
    simp [refresh_token_fn, hcred, hrt, h200, hat, hne, hdec, pyTruthyOS]

/-- C7 amended witness: cached-token return at concrete inputs. -/
theorem c7_get_access_token_witness :
    get_access_token_fn (fun _ => none) (fun _ => none) 0
        { credentials := some
            { aim_url := none, refresh_token := none, sdk_token_id := none },
          access_token := some "tok", access_token_expiry := some 1000 }
        { statusCode := 200, errorMsg := "", access_token := none,
          refresh_token := none }
        { statusCode := 500, access_token := none, refresh_token := none }
      = (some "tok",
         { credentials := some
             { aim_url := none, refresh_token := none, sdk_token_id := none },
           access_token := some "tok", access_token_expiry := some 1000 },
         []) :=
  (c7_get_access_token (fun _ => none) (fun _ => none) 0
      { credentials := some
          { aim_url := none, refresh_token := none, sdk_token_id := none },
        access_token := some "tok", access_token_expiry := some 1000 }
      { statusCode := 200, errorMsg := "", access_token := none, refresh_token := none }
      { statusCode := 500, access_token := none, refresh_token := none }
      { aim_url := none, refresh_token := none, sdk_token_id := none }
      "rt" "tok" "a" 1000).1 rfl rfl (by decide) rfl (by norm_num) (by norm_num)

/-- The auth-mode selection never reconstructs a stored client: only the
load-existing step does. -/
theorem select_auth_mode_ne_loaded (sdk_creds : Option SdkCreds)
    (aim_url api_key sdk_token_id : Option String) (c : StoredAgentCreds) :
    select_auth_mode sdk_creds aim_url api_key sdk_token_id ≠ .loaded c := by
  rw [select_auth_mode.eq_def]
  split
  · split <;> simp
  · split
    · dsimp only
      split <;> simp
    · split
      · split <;> simp
      · simp

/-- C9: unless `force_new` is set, existing stored credentials for the name
short-circuit registration — the outcome is exactly `loaded` with those
credentials (no registration call is reached); with `force_new` the store
is ignored; and otherwise the authentication mode is: API-key mode when an
api_key is passed together with `sdk_token_id=None`, else OAuth mode when
embedded SDK credentials exist, else API-key mode when an api_key is
supplied, else a Configuration error. -/
theorem c9_register_agent_mode (stored : Option StoredAgentCreds)
    (sdk_creds : Option SdkCreds) (aim_url api_key sdk_token_id : Option String)
    (c : StoredAgentCreds) (sc : SdkCreds) :
    (stored = some c →
      register_agent_mode false stored sdk_creds aim_url api_key sdk_token_id = .loaded c)
    ∧ (register_agent_mode false stored sdk_creds aim_url api_key sdk_token_id = .loaded c →
        stored = some c)
    ∧ register_agent_mode true stored sdk_creds aim_url api_key sdk_token_id
        = select_auth_mode sdk_creds aim_url api_key sdk_token_id
    ∧ (sdk_token_id = none → pyTruthyOS api_key = true → pyTruthyOS aim_url = true →
        select_auth_mode sdk_creds aim_url api_key sdk_token_id
          = .proceed apiKeyMode aim_url sdk_token_id)
    ∧ (¬ (sdk_token_id = none ∧ pyTruthyOS api_key) → sdk_creds = some sc →
        pyTruthyOS (pyOr aim_url sc.aim_url) = true →
        select_auth_mode sdk_creds aim_url api_key sdk_token_id
          = .proceed oauthMode (pyOr aim_url sc.aim_url) (pyOr sdk_token_id sc.sdk_token_id))
    ∧ (¬ (sdk_token_id = none ∧ pyTruthyOS api_key) → sdk_creds = none →
        pyTruthyOS api_key = true → pyTruthyOS aim_url = true →
        select_auth_mode sdk_creds aim_url api_key sdk_token_id
          = .proceed apiKeyMode aim_url sdk_token_id)
    ∧ (sdk_creds = none → pyTruthyOS api_key = false →
        select_auth_mode sdk_creds aim_url api_key sdk_token_id
          = .configError "No authentication credentials found") := by
  refine ⟨?_, ?_, ?_, ?_, ?_, ?_, ?_⟩
  · intro h
    simp [register_agent_mode, h]
  · intro h
    rcases hs : stored with _ | c2
    · rw [hs] at h
      have h2 : select_auth_mode sdk_creds aim_url api_key sdk_token_id = .loaded c := by
        simpa [register_agent_mode] using h
      exact absurd h2 (select_auth_mode_ne_loaded _ _ _ _ _)
    · rw [hs] at h
      have h2 : c2 = c := by
        simpa [register_agent_mode] using h
      rw [h2]
  · simp [register_agent_mode]
  · intro h1 h2 h3
    simp [select_auth_mode, h1, h2, h3]
  · intro h1 h2 h3
    rw [select_auth_mode.eq_def, if_neg h1, h2]
    simp [h3]
  · intro h1 h2 h3 h4
    rw [select_auth_mode.eq_def, if_neg h1, h2]
    simp [h3, h4]
  · intro h1 h2
    by_cases h3 : sdk_token_id = none ∧ pyTruthyOS api_key
    · exact absurd h2 (by simp [h3.2])
    · rw [select_auth_mode.eq_def, if_neg h3, h1]
      simp [h2]

/-- C9 witness at concrete inputs: the load-existing short-circuit. -/
theorem c9_register_agent_mode_witness :
    register_agent_mode false
        (some
          { agent_id := "id1", public_key := "pk", private_key := "sk",
            aim_url := "http://x", refresh_token := none, access_token := none })
        none (some "http://x") (some "key") none
      = .loaded
          { agent_id := "id1", public_key := "pk", private_key := "sk",
            aim_url := "http://x", refresh_token := none, access_token := none } :=
  (c9_register_agent_mode
      (some
        { agent_id := "id1", public_key := "pk", private_key := "sk",
          aim_url := "http://x", refresh_token := none, access_token := none })
      none (some "http://x") (some "key") none
      { agent_id := "id1", public_key := "pk", private_key := "sk",
        aim_url := "http://x", refresh_token := none, access_token := none }
      { aim_url := none, sdk_token_id := none }).1 rfl

end AimSdk
